import Mathlib

/-!
Verification of the authentication/authorization subsystem and the
data-freshness evaluator of the smart-campus-dashboard repository.

The embedding follows `src/auth/user_manager.py`, `src/auth/auth_ui.py`
and `src/database/db_manager.py`.  Python dicts become association
lists with unique keys (insertion replaces in place, as dict assignment
does); timestamps (`datetime.now().isoformat()`) become integer clock
values passed explicitly; the on-disk JSON file becomes a `Users` value
carried alongside the in-memory map, so that "persisted" is the
proposition that the two agree; SHA-256 hex digests are abstracted as a
tagged concatenation of password and salt, which preserves the two
properties the code relies on (determinism and injectivity).
-/

namespace SmartCampus

/-- Account record, after `user_manager.py` lines 92-100: the per-user
dict stored in `self.users`. `password` holds the salted hash, never
the plaintext. Timestamps are model integers. -/
structure Account where
  password : String
  role : String
  permissions : List String
  created_by : String
  created_at : Int
  active : Bool
  last_login : Option Int
deriving Repr, DecidableEq

/-- The username-to-account mapping held in `self.users`. -/
abbrev Users := List (String × Account)

/-- Dict lookup `self.users[username]` / membership `username in self.users`. -/
def lookupUser (us : Users) (k : String) : Option Account :=
  match us with
  | [] => none
  | (k', v) :: rest => if k' = k then some v else lookupUser rest k

/-- Dict membership test `username in self.users`. -/
def containsUser (us : Users) (k : String) : Bool :=
  (lookupUser us k).isSome

/-- Dict assignment `self.users[username] = record`: replaces in place
when the key is present, appends otherwise. -/
def insertUser (us : Users) (k : String) (v : Account) : Users :=
  match us with
  | [] => [(k, v)]
  | (k', v') :: rest =>
    if k' = k then (k, v) :: rest else (k', v') :: insertUser rest k v

/-- Dict deletion `del self.users[username]`. -/
def eraseUser (us : Users) (k : String) : Users :=
  match us with
  | [] => []
  | (k', v') :: rest => if k' = k then rest else (k', v') :: eraseUser rest k

/-- State of a `UserManager`: the in-memory `self.users` plus the
contents of the backing `users.json` file (`save_users` rewrites the
file wholesale from `self.users`). -/
structure UMState where
  users : Users
  file : Users
deriving Repr, DecidableEq

/-- `SECURITY_CONFIG.get("password_salt", "smart_campus_salt")` in
`hash_password`; `SECURITY_CONFIG` in `config.py` has no such key, so
the fallback is used. -/
def password_salt : String := "smart_campus_salt"

/-- `hash_password` (user_manager.py lines 22-25):
`sha256(f"{password}{salt}").hexdigest()`, with the digest abstracted
as a tagged concatenation; deterministic and injective like the real
digest for the inputs considered here, and never the plaintext alone. -/
def hash_password (password : String) : String :=
  "sha256:" ++ password ++ password_salt

/-- `USER_CONFIG.get("default_admin_password", "cisco6776")` in
`load_users`; `USER_CONFIG` in `config.py` has no such key (it lives in
`APP_CONFIG`), so the fallback `"cisco6776"` is used. -/
def default_admin_password : String := "cisco6776"

/-- The bootstrap admin record built by `load_users` (lines 38-53). -/
def admin_account (now : Int) : Account :=
  { password := hash_password default_admin_password
    role := "admin"
    permissions := ["dashboard", "user_management", "all_sensors", "sensors"]
    created_by := "system"
    created_at := now
    active := true
    last_login := none }

/-- `load_users` (user_manager.py lines 27-57): the backing file is
`some m` when it exists with contents `m` and `none` when absent.  When
absent, the default admin record is created and saved immediately; when
present, its contents are loaded as-is. -/
def load_users (now : Int) (disk : Option Users) : UMState :=
  match disk with
  | some m => { users := m, file := m }
  | none =>
    let us : Users := [("admin", admin_account now)]
    { users := us, file := us }

/-- `authenticate_user` (lines 67-78).  On a hit with an active account
and matching hash, `last_login` is set on the stored record, the store
is saved, and the (mutated) record is returned; otherwise
`(False, None)` with the state untouched. -/
def authenticate_user (st : UMState) (now : Int) (username password : String) :
    (Bool × Option Account) × UMState :=
  match lookupUser st.users username with
  | some user =>
    if user.active && user.password == hash_password password then
      let user' := { user with last_login := some now }
      let users' := insertUser st.users username user'
      ((true, some user'), { users := users', file := users' })
    else ((false, none), st)
  | none => ((false, none), st)

/-- `add_user` (lines 80-102). -/
def add_user (st : UMState) (now : Int) (username password role : String)
    (permissions : List String) (created_by : String) :
    (Bool × String) × UMState :=
  if containsUser st.users username then
    ((false, "User already exists"), st)
  else
    let acct : Account :=
      { password := hash_password password
        role := role
        permissions := permissions
        created_by := created_by
        created_at := now
        active := true
        last_login := none }
    let users' := insertUser st.users username acct
    ((true, "User created successfully"), { users := users', file := users' })

/-- One keyword argument accepted by `update_user`: `**kwargs` ranges
over the fields of the account record, with `password` re-hashed and
every other key assigned verbatim (lines 109-113). -/
inductive UserUpdate where
  | password (p : String)
  | role (r : String)
  | permissions (ps : List String)
  | created_by (c : String)
  | created_at (t : Int)
  | active (a : Bool)
  | last_login (t : Option Int)
deriving Repr, DecidableEq

/-- Application of one `key, value` pair in `update_user`'s loop. -/
def apply_update (acct : Account) (u : UserUpdate) : Account :=
  match u with
  | .password p => { acct with password := hash_password p }
  | .role r => { acct with role := r }
  | .permissions ps => { acct with permissions := ps }
  | .created_by c => { acct with created_by := c }
  | .created_at t => { acct with created_at := t }
  | .active a => { acct with active := a }
  | .last_login t => { acct with last_login := t }

/-- `update_user` (lines 104-116): no protection check of any kind,
only existence of the target username. -/
def update_user (st : UMState) (username : String) (kwargs : List UserUpdate) :
    (Bool × String) × UMState :=
  match lookupUser st.users username with
  | none => ((false, "User not found"), st)
  | some acct =>
    let acct' := kwargs.foldl apply_update acct
    let users' := insertUser st.users username acct'
    ((true, "User updated successfully"), { users := users', file := users' })

/-- `delete_user` (lines 118-131).  Note the order of the guards: the
not-found check comes before the admin-protection check. -/
def delete_user (st : UMState) (username requester : String) :
    (Bool × String) × UMState :=
  if ¬ containsUser st.users username then
    ((false, "User not found"), st)
  else if username = "admin" then
    ((false, "Cannot delete admin user"), st)
  else if username = requester then
    ((false, "Cannot delete your own account"), st)
  else
    let users' := eraseUser st.users username
    ((true, "User deleted successfully"), { users := users', file := users' })

/-- `deactivate_user` (lines 133-139): refuses `"admin"` and unknown
usernames with a single shared message. -/
def deactivate_user (st : UMState) (username : String) :
    (Bool × String) × UMState :=
  if containsUser st.users username ∧ username ≠ "admin" then
    match lookupUser st.users username with
    | some acct =>
      let users' := insertUser st.users username { acct with active := false }
      ((true, "User deactivated"), { users := users', file := users' })
    | none => ((false, "Cannot deactivate admin or user not found"), st)
  else ((false, "Cannot deactivate admin or user not found"), st)

/-- `check_permission` on the credential store (lines 153-159):
`permission in user_permissions or "all_sensors" in user_permissions`. -/
def check_permission (st : UMState) (username permission : String) : Bool :=
  match lookupUser st.users username with
  | none => false
  | some acct =>
    permission ∈ acct.permissions || "all_sensors" ∈ acct.permissions

/-- Streamlit session state as read by `auth_ui.check_permission`
(auth_ui.py lines 376-383): the `authenticated` flag and the
`permissions` list of the `user_info` snapshot stored at login. -/
structure SessionState where
  authenticated : Bool
  permissions : List String
deriving Repr, DecidableEq

/-- The session gate `check_permission` (auth_ui.py lines 376-383). -/
def session_check_permission (ss : SessionState) (permission : String) : Bool :=
  if ¬ ss.authenticated then false
  else permission ∈ ss.permissions || "all_sensors" ∈ ss.permissions

/-- One sensor feed as seen by `check_data_freshness` (db_manager.py
lines 123-153): the `df.empty` flag and `df.index.max()` when the index
has a usable maximum (`hasattr(df.index, "max")`).  Timestamps are
seconds on one absolute axis, so the timezone conversions on lines
138-141 (which relabel but do not move the instant) are identities. -/
structure Feed where
  isEmpty : Bool
  indexMax : Option Int
deriving Repr, DecidableEq

/-- The `latest_times` list gathered on lines 128-131. -/
def latest_times (df_list : List Feed) : List Int :=
  df_list.filterMap fun df => if ¬ df.isEmpty then df.indexMax else none

/-- Two-digit decimal rendering used inside the `%H:%M:%S` format. -/
def two_digits (n : Nat) : String :=
  (if n < 10 then "0" else "") ++ toString n

/-- `latest_time.strftime("%H:%M:%S")`: clock-of-day fields of a
seconds timestamp. -/
def format_hms (t : Int) : String :=
  let s := (t % 86400).toNat
  two_digits (s / 3600) ++ ":" ++ two_digits (s / 60 % 60) ++ ":" ++
    two_digits (s % 60)

/-- `f"{time_diff.total_seconds()/60:.1f}"`: the age in minutes to one
decimal place (the float division-and-round is rendered by integer
arithmetic on tenths of a minute). -/
def format_minutes (d : Int) : String :=
  let tenths := (d + 3) / 6
  toString (tenths / 10) ++ "." ++ toString ((tenths % 10).toNat)

/-- The stale-data message of lines 148-151. -/
def stale_message (latest_time time_diff : Int) : String :=
  "Last update: " ++ format_hms latest_time ++ " (" ++
    format_minutes time_diff ++ " min ago) - Showing 24hr history"

/-- The live-data message of line 153. -/
def live_message (latest_time : Int) : String :=
  "Live data (last update: " ++ format_hms latest_time ++ ")"

/-- `check_data_freshness` (db_manager.py lines 123-153), with `now`
passed explicitly in place of `datetime.now(UGANDA_TZ)`. -/
def check_data_freshness (now : Int) (df_list : List Feed) : Bool × String :=
  if ¬ df_list.any (fun df => ¬ df.isEmpty) then
    (false, "No data available")
  else
    match (latest_times df_list).max? with
    | none => (false, "No valid timestamps found")
    | some latest_time =>
      let time_diff := now - latest_time
      if time_diff > 600 then (false, stale_message latest_time time_diff)
      else (true, live_message latest_time)

/-! ## Helper lemmas -/

theorem lookupUser_insertUser_self (us : Users) (k : String) (v : Account) :
    lookupUser (insertUser us k v) k = some v := by
  induction us with
  | nil => simp [insertUser, lookupUser]
  | cons hd tl ih =>
    obtain ⟨k', v'⟩ := hd
    by_cases h : k' = k <;> simp [insertUser, lookupUser, h, ih]

theorem latest_times_ne_nil_any (df_list : List Feed)
    (h : latest_times df_list ≠ []) :
    df_list.any (fun df => ¬ df.isEmpty) = true := by
  induction df_list with
  | nil => simp [latest_times] at h
  | cons hd tl ih =>
    by_cases he : hd.isEmpty
    · simp only [latest_times, List.filterMap_cons, he] at h
      simp only [List.any_cons, Bool.or_eq_true]
      exact Or.inr (ih (by simpa [latest_times] using h))
    · simp [he]

/-! ## Claim theorems -/

/-- C1: whenever `create_account` succeeds for `(username, password)`
(username fresh), a subsequent `authenticate` with the same pair
succeeds, returns the stored account record, whose `last_login` went
from absent to a timestamp at or after the authenticate call time, and
the updated store is persisted before returning. -/
theorem create_then_authenticate_succeeds
    (st : UMState) (now1 now2 : Int) (username password role : String)
    (permissions : List String) (created_by : String)
    (hfresh : containsUser st.users username = false) :
    let r1 := add_user st now1 username password role permissions created_by
    let r2 := authenticate_user r1.2 now2 username password
    r1.1.1 = true ∧
    r2.1.1 = true ∧
    (∃ acct, r2.1.2 = some acct ∧
      lookupUser r2.2.users username = some acct ∧
      lookupUser r1.2.users username = some { acct with last_login := none } ∧
      ∃ t, acct.last_login = some t ∧ now2 ≤ t) ∧
    r2.2.file = r2.2.users := by
  have hadd :
      add_user st now1 username password role permissions created_by =
        ((true, "User created successfully"),
         { users := insertUser st.users username
             { password := hash_password password, role := role,
               permissions := permissions, created_by := created_by,
               created_at := now1, active := true, last_login := none },
           file := insertUser st.users username
             { password := hash_password password, role := role,
               permissions := permissions, created_by := created_by,
               created_at := now1, active := true, last_login := none } }) := by
    simp [add_user, hfresh]
  intro r1 r2
  show r1.1.1 = true ∧ _
  simp only [r2, r1, hadd]
  have hlook := lookupUser_insertUser_self st.users username
      { password := hash_password password, role := role,
        permissions := permissions, created_by := created_by,
        created_at := now1, active := true, last_login := none }
  refine ⟨trivial, ?_, ?_, ?_⟩
  · simp [authenticate_user, hlook]
  · exact ⟨({ password := hash_password password, role := role, permissions := permissions, created_by := created_by, created_at := now1, active := true, last_login := some now2 } : Account), by simp [authenticate_user, hlook], by simp [authenticate_user, hlook, lookupUser_insertUser_self], by simpa using hlook, now2, rfl, le_refl now2⟩
  · simp [authenticate_user, hlook]

/-- C1 witness: concrete instance on an empty store. -/
theorem create_then_authenticate_succeeds_witness :
    let st : UMState := { users := [], file := [] }
    let r1 := add_user st 3 "alice" "pw1" "user" ["dashboard"] "admin"
    let r2 := authenticate_user r1.2 7 "alice" "pw1"
    r1.1.1 = true ∧
    r2.1.1 = true ∧
    (∃ acct, r2.1.2 = some acct ∧
      lookupUser r2.2.users "alice" = some acct ∧
      lookupUser r1.2.users "alice" = some { acct with last_login := none } ∧
      ∃ t, acct.last_login = some t ∧ (7 : Int) ≤ t) ∧
    r2.2.file = r2.2.users :=
  create_then_authenticate_succeeds { users := [], file := [] } 3 7
    "alice" "pw1" "user" ["dashboard"] "admin" (by decide)

/-- C2: authentication against an account whose stored hash matches the
supplied password but whose `active` flag is false fails, and the
return value `((false, none), st)` is identical to that of an
unknown-username run and of a wrong-password run. -/
theorem inactive_auth_indistinguishable
    (st : UMState) (now : Int) (username password : String) (acct : Account)
    (hlook : lookupUser st.users username = some acct)
    (_hmatch : acct.password = hash_password password)
    (hinactive : acct.active = false) :
    authenticate_user st now username password = ((false, none), st) ∧
    (∀ u p, lookupUser st.users u = none →
      authenticate_user st now u p = authenticate_user st now username password) ∧
    (∀ u p a, lookupUser st.users u = some a →
      a.password ≠ hash_password p →
      authenticate_user st now u p = authenticate_user st now username password) := by
  have hmain : authenticate_user st now username password = ((false, none), st) := by
    simp [authenticate_user, hlook, hinactive]
  refine ⟨hmain, ?_, ?_⟩
  · intro u p hu
    rw [hmain]
    simp [authenticate_user, hu]
  · intro u p a ha hne
    rw [hmain]
    simp [authenticate_user, ha, hne]

/-- Fixture: an inactive account whose stored hash matches "pw". -/
def bob_account : Account :=
  { password := hash_password "pw"
    role := "user"
    permissions := []
    created_by := "admin"
    created_at := 0
    active := false
    last_login := none }

/-- C2 witness: a concrete store with one inactive account whose hash
matches the supplied password. -/
theorem inactive_auth_indistinguishable_witness :
    authenticate_user
        { users := [("bob", bob_account)], file := [("bob", bob_account)] }
        9 "bob" "pw"
      = ((false, none),
        { users := [("bob", bob_account)], file := [("bob", bob_account)] }) := by
  exact (inactive_auth_indistinguishable _ 9 "bob" "pw" bob_account (by decide)
    (by decide) (by decide)).1

/-- C3 counterexample: in a store that holds no account named "admin"
(here: the empty store), `delete_user "admin"` fails with the not-found
message, not the protected-account message, contradicting "for every
store state ... fails with the ProtectedAccount rejection". -/
theorem delete_admin_not_protected_when_absent :
    (delete_user { users := [], file := [] } "admin" "alice").1
      = (false, "User not found") ∧
    "User not found" ≠ "Cannot delete admin user" := by
  exact ⟨by decide, by decide⟩

/-- C3 amended: for every requester and every store state that contains
an account named "admin", `delete_user "admin"` fails with the
protected-account rejection and the state is unchanged; when "admin" is
absent it fails with the not-found rejection, also leaving the state
unchanged. -/
theorem delete_admin_always_fails
    (st : UMState) (requester : String) :
    (containsUser st.users "admin" = true →
      delete_user st "admin" requester
        = ((false, "Cannot delete admin user"), st)) ∧
    (containsUser st.users "admin" = false →
      delete_user st "admin" requester = ((false, "User not found"), st)) := by
  constructor
  · intro h
    simp [delete_user, h]
  · intro h
    simp [delete_user, h]

/-- Fixture: the bootstrap-admin store state. -/
def admin_store : UMState :=
  { users := [("admin", admin_account 0)]
    file := [("admin", admin_account 0)] }

/-- Fixture: a store holding one non-admin account named "carol". -/
def carol_store : UMState :=
  { users := [("carol", admin_account 2)]
    file := [("carol", admin_account 2)] }

/-- C3 amended witness: both branches at concrete stores. -/
theorem delete_admin_always_fails_witness :
    delete_user admin_store "admin" "alice"
      = ((false, "Cannot delete admin user"), admin_store) ∧
    delete_user { users := [], file := [] } "admin" "alice"
      = ((false, "User not found"), { users := [], file := [] }) := by
  exact ⟨(delete_admin_always_fails admin_store "alice").1 (by decide),
    (delete_admin_always_fails { users := [], file := [] } "alice").2 (by decide)⟩

/-- C4: for every non-admin username X present in the store,
`delete_user X X` fails with the self-deletion rejection and the state
(hence every account and every field) is unchanged. -/
theorem self_deletion_rejected
    (st : UMState) (X : String)
    (hX : X ≠ "admin") (hmem : containsUser st.users X = true) :
    delete_user st X X = ((false, "Cannot delete your own account"), st) := by
  simp [delete_user, hmem, hX]

/-- C4 witness: concrete non-admin account deleting itself. -/
theorem self_deletion_rejected_witness :
    delete_user carol_store "carol" "carol"
      = ((false, "Cannot delete your own account"), carol_store) :=
  self_deletion_rejected carol_store "carol" (by decide) (by decide)

/-- C5: `check_permission` is false for unknown usernames, and for a
stored account it is true exactly when the permission is in the
account's permission list or "all_sensors" is; in particular an account
whose permission list is exactly ["all_sensors"] passes the "sensors"
check. -/
theorem has_permission_spec (st : UMState) (u p : String) :
    (lookupUser st.users u = none → check_permission st u p = false) ∧
    (check_permission st u p = true ↔
      ∃ acct, lookupUser st.users u = some acct ∧
        (p ∈ acct.permissions ∨ "all_sensors" ∈ acct.permissions)) ∧
    (∀ acct, lookupUser st.users u = some acct →
      acct.permissions = ["all_sensors"] →
      check_permission st u "sensors" = true) := by
  refine ⟨?_, ?_, ?_⟩
  · intro h
    simp [check_permission, h]
  · cases hl : lookupUser st.users u with
    | none => simp [check_permission, hl]
    | some acct => simp [check_permission, hl]
  · intro acct hl hperm
    simp [check_permission, hl, hperm]

/-- Fixture: an account whose only permission is the blanket
"all_sensors" tag. -/
def dave_account : Account :=
  { password := hash_password "x"
    role := "user"
    permissions := ["all_sensors"]
    created_by := "admin"
    created_at := 0
    active := true
    last_login := none }

/-- Fixture: a store holding only the account [dave_account]. -/
def dave_store : UMState :=
  { users := [("dave", dave_account)], file := [("dave", dave_account)] }

/-- C5 witness: the "sensors" check passes for the account created with
permissions = ["all_sensors"] only, and fails for an unknown user. -/
theorem has_permission_spec_witness :
    check_permission { users := [], file := [] } "nobody" "sensors" = false ∧
    check_permission dave_store "dave" "sensors" = true := by
  refine ⟨(has_permission_spec { users := [], file := [] } "nobody" "sensors").1
    (by decide), ?_⟩
  exact (has_permission_spec dave_store "dave" "sensors").2.2
    dave_account (by decide) (by decide)

/-- C6: the session gate returns false for unauthenticated sessions,
and for an authenticated session whose permission snapshot equals a
stored account's permission list it returns exactly the credential
store's `check_permission` verdict, for every permission tag. -/
theorem session_gate_matches_store (ss : SessionState) (p : String) :
    (ss.authenticated = false → session_check_permission ss p = false) ∧
    (∀ (st : UMState) (username : String) (acct : Account),
      ss.authenticated = true →
      lookupUser st.users username = some acct →
      ss.permissions = acct.permissions →
      session_check_permission ss p = check_permission st username p) := by
  constructor
  · intro h
    simp [session_check_permission, h]
  · intro st username acct hauth hlook hperm
    simp [session_check_permission, check_permission, hauth, hlook, hperm]

/-- C6 witness: concrete unauthenticated and authenticated sessions. -/
theorem session_gate_matches_store_witness :
    session_check_permission { authenticated := false, permissions := [] }
      "dashboard" = false ∧
    session_check_permission
        { authenticated := true, permissions := ["all_sensors"] } "sensors"
      = check_permission dave_store "dave" "sensors" := by
  refine ⟨(session_gate_matches_store _ "dashboard").1 rfl, ?_⟩
  exact (session_gate_matches_store
      { authenticated := true, permissions := ["all_sensors"] } "sensors").2
    dave_store "dave" dave_account rfl (by decide) (by decide)

/-- C7: with the threshold fixed at 600 seconds, a feed collection
whose maximum timestamp is `age` seconds before `now` yields the stale
result (false, formatted message with last-update time, age in minutes
and the fallback-history note) when `age > 600`, and the live result
(true, live message) when `age ≤ 600`, including at exactly 600. -/
theorem freshness_threshold_boundary
    (now age : Int) (df_list : List Feed)
    (hmax : (latest_times df_list).max? = some (now - age)) :
    (600 < age →
      check_data_freshness now df_list
        = (false, stale_message (now - age) age)) ∧
    (age ≤ 600 →
      check_data_freshness now df_list = (true, live_message (now - age))) := by
  have hne : latest_times df_list ≠ [] := by
    intro h
    rw [h] at hmax
    simp at hmax
  have hany := latest_times_ne_nil_any df_list hne
  have hdiff : now - (now - age) = age := by ring
  constructor
  · intro hgt
    unfold check_data_freshness
    rw [if_neg (not_not_intro hany), hmax]
    simp only [hdiff]
    rw [if_pos hgt]
  · intro hle
    unfold check_data_freshness
    rw [if_neg (not_not_intro hany), hmax]
    simp only [hdiff]
    rw [if_neg (not_lt.mpr hle)]

/-- C7 witness: both sides of the boundary (ages 599, 600 and 601) on a
single one-feed collection. -/
theorem freshness_threshold_boundary_witness :
    check_data_freshness 601 [{ isEmpty := false, indexMax := some 0 }]
      = (false, stale_message 0 601) ∧
    check_data_freshness 599 [{ isEmpty := false, indexMax := some 0 }]
      = (true, live_message 0) ∧
    check_data_freshness 600 [{ isEmpty := false, indexMax := some 0 }]
      = (true, live_message 0) := by
  refine ⟨?_, ?_, ?_⟩
  · exact (freshness_threshold_boundary 601 601
      [{ isEmpty := false, indexMax := some 0 }] (by decide)).1 (by decide)
  · exact (freshness_threshold_boundary 599 599
      [{ isEmpty := false, indexMax := some 0 }] (by decide)).2 (by decide)
  · exact (freshness_threshold_boundary 600 600
      [{ isEmpty := false, indexMax := some 0 }] (by decide)).2 (by decide)

/-- C8: when every feed is empty the result is exactly
(false, "No data available"); when some feed is non-empty but no usable
maximum timestamp is gathered, the result is exactly
(false, "No valid timestamps found"). -/
theorem freshness_degenerate_messages (now : Int) (df_list : List Feed) :
    ((∀ df ∈ df_list, df.isEmpty = true) →
      check_data_freshness now df_list = (false, "No data available")) ∧
    ((∃ df ∈ df_list, df.isEmpty = false) → latest_times df_list = [] →
      check_data_freshness now df_list
        = (false, "No valid timestamps found")) := by
  constructor
  · intro h
    have hcond : ¬ (df_list.any (fun df => ¬ df.isEmpty) = true) := by
      simp only [List.any_eq_true, not_exists]
      intro df
      simp only [decide_eq_true_eq, Bool.not_eq_true, not_and, not_not]
      intro hdf hne
      simp [h df hdf] at hne
    unfold check_data_freshness
    rw [if_pos hcond]
  · intro hex hnil
    have hany : df_list.any (fun df => ¬ df.isEmpty) = true := by
      obtain ⟨df, hdf, hfalse⟩ := hex
      simp only [List.any_eq_true]
      exact ⟨df, hdf, by simp [hfalse]⟩
    unfold check_data_freshness
    rw [if_neg (not_not_intro hany), hnil]
    rfl

/-- C8 witness: three empty feeds, and one non-empty feed with no
usable index maximum. -/
theorem freshness_degenerate_messages_witness :
    check_data_freshness 0
        [{ isEmpty := true, indexMax := none },
         { isEmpty := true, indexMax := some 5 },
         { isEmpty := true, indexMax := none }]
      = (false, "No data available") ∧
    check_data_freshness 0 [{ isEmpty := false, indexMax := none }]
      = (false, "No valid timestamps found") := by
  refine ⟨?_, ?_⟩
  · exact (freshness_degenerate_messages 0 _).1 (by decide)
  · exact (freshness_degenerate_messages 0
      [{ isEmpty := false, indexMax := none }]).2
      ⟨{ isEmpty := false, indexMax := none }, by decide, rfl⟩ (by decide)

/-- C9 counterexample: a backing store file that exists but holds zero
accounts is an "empty store", yet `load_users` loads it as-is and
creates no admin account, contradicting "absent or empty". -/
theorem bootstrap_skips_existing_empty_store :
    (load_users 0 (some [])).users = [] ∧
    lookupUser (load_users 0 (some [])).users "admin" = none := by
  exact ⟨rfl, rfl⟩

/-- C9 amended: when the backing store file is absent, `load_users`
creates exactly one account, named "admin", with role admin, the full
four-tag permission list, active, `last_login` absent, created_by
"system" and the hash of the configured default password, persisting it
immediately; when the file exists — even with zero accounts — its
contents are loaded unchanged (idempotent). -/
theorem bootstrap_admin_on_absent_store (now : Int) (m : Users) :
    load_users now none
      = { users := [("admin", admin_account now)],
          file := [("admin", admin_account now)] } ∧
    (admin_account now).role = "admin" ∧
    (admin_account now).permissions
      = ["dashboard", "user_management", "all_sensors", "sensors"] ∧
    (admin_account now).active = true ∧
    (admin_account now).last_login = none ∧
    (admin_account now).created_by = "system" ∧
    (admin_account now).password = hash_password default_admin_password ∧
    load_users now (some m) = { users := m, file := m } := by
  exact ⟨rfl, rfl, rfl, rfl, rfl, rfl, rfl, rfl⟩

/-- C10: the generic update operation has no admin protection: when
"admin" exists, `update_user "admin" [active := false]` succeeds and
clears the active flag, every subsequent authentication attempt for
"admin" fails regardless of password, while the dedicated
`deactivate_user` rejects "admin". -/
theorem admin_lockout_via_update
    (st : UMState) (acct : Account)
    (hlook : lookupUser st.users "admin" = some acct) :
    let r := update_user st "admin" [UserUpdate.active false]
    r.1 = (true, "User updated successfully") ∧
    lookupUser r.2.users "admin" = some { acct with active := false } ∧
    (∀ (p : String) (now : Int),
      (authenticate_user r.2 now "admin" p).1 = (false, none)) ∧
    (deactivate_user st "admin").1.1 = false := by
  intro r
  have hr : r = ((true, "User updated successfully"),
      { users := insertUser st.users "admin" { acct with active := false },
        file := insertUser st.users "admin" { acct with active := false } }) := by
    simp [r, update_user, hlook, apply_update]
  have hlook' := lookupUser_insertUser_self st.users "admin"
      { acct with active := false }
  refine ⟨by rw [hr], by rw [hr]; exact hlook', ?_, ?_⟩
  · intro p now
    rw [hr]
    simp [authenticate_user, hlook']
  · simp [deactivate_user]

/-- C10 witness: the bootstrap store; admin locks itself out through
update while deactivate refuses. -/
theorem admin_lockout_via_update_witness :
    let r := update_user admin_store "admin" [UserUpdate.active false]
    r.1 = (true, "User updated successfully") ∧
    lookupUser r.2.users "admin"
      = some { admin_account 0 with active := false } ∧
    (∀ (p : String) (now : Int),
      (authenticate_user r.2 now "admin" p).1 = (false, none)) ∧
    (deactivate_user admin_store "admin").1.1 = false :=
  admin_lockout_via_update admin_store (admin_account 0) (by decide)

end SmartCampus
